import Mathlib

/-!
# SkillScale — verification of the messaging / skill-server core

This file is a shallow embedding, in Lean 4, of the parts of the SkillScale
repository that the checked claims are about:

* `skill-server-py/openskills.py` — `parse_agents_md`, `read_skill_md`,
  `execute_skill` and their data classes;
* `skill-server-py/server.py` — `parse_request`, `make_response` and the
  per-message body of `worker_thread` (skill selection and response
  publication), with `match_skill_llm`;
* `skillscale/client.py` — `SkillScaleClient` lifecycle (`connect`/`close`),
  `invoke`, `invoke_parallel` and the pending-request table;
* `skillscale/discovery.py` — `SkillDiscovery.scan` / `_parse_skill_md`.

Modelling conventions:

* Python strings are `String`; machine-level details (sockets, subprocesses,
  the LLM call, the clock) are oracles passed as explicit parameters, so every
  definition is a computable total function.
* The filesystem is an oracle `files : String → Option String` mapping a path
  to the file's content when a regular file exists there
  (`os.path.isfile p = (files p).isSome`).
* `json.loads` of the intent string and of the XML block are external parsers
  and are passed as oracle functions; the JSON objects the claims exercise are
  string-valued, so a JSON object is modelled as an association list
  `List (String × String)` with Python's last-assignment-wins lookup.
* The regular expressions used by the sources are embedded directly as
  character-list scanners with the exact backtracking semantics of
  `re.match` / `re.search` on the patterns in question.
-/

namespace SkillScale

/-! ## Python string primitives -/

/-- Python's `\s` character class for ASCII text (`[ \t\n\r\f\v]`). -/
def pyIsSpace (c : Char) : Bool :=
  c = ' ' || c = '\t' || c = '\n' || c = '\r' || c = '\x0b' || c = '\x0c'

/-- Python `str.strip()` (no argument): drop leading and trailing whitespace. -/
def pyStrip (s : String) : String :=
  String.mk (((s.data.dropWhile pyIsSpace).reverse.dropWhile pyIsSpace).reverse)

/-- Python `str.strip(chars)`: drop leading and trailing characters from `chars`. -/
def pyStripChars (chars : List Char) (s : String) : String :=
  String.mk (((s.data.dropWhile (chars.contains ·)).reverse.dropWhile
    (chars.contains ·)).reverse)

/-- Python `str.rstrip(chars)`: drop trailing characters from `chars`. -/
def pyRstripChars (chars : List Char) (s : String) : String :=
  String.mk ((s.data.reverse.dropWhile (chars.contains ·)).reverse)

/-- Characters Python `str.splitlines` treats as line boundaries. -/
def isLineBreakChar (c : Char) : Bool :=
  c = '\n' || c = '\r' || c = '\x0b' || c = '\x0c' || c = '\x1c' ||
  c = '\x1d' || c = '\x1e' || c = '\x85' || c = '\u2028' || c = '\u2029'

/-- Worker for `pySplitLines`; `cur` holds the current line reversed. -/
def splitLinesAux : List Char → List Char → List String
  | [], cur => if cur.isEmpty then [] else [String.mk cur.reverse]
  | '\r' :: '\n' :: rest, cur => String.mk cur.reverse :: splitLinesAux rest []
  | c :: rest, cur =>
    if isLineBreakChar c then String.mk cur.reverse :: splitLinesAux rest []
    else splitLinesAux rest (c :: cur)

/-- Python `str.splitlines()` (no trailing empty line). -/
def pySplitLines (s : String) : List String :=
  splitLinesAux s.data []

/-- Python `before, _, after = s.partition(sep)` for a one-character separator:
split at the first occurrence; `(s, "")` when absent. -/
def pyPartition (s : String) (sep : Char) : String × String :=
  let pre := s.data.takeWhile (· ≠ sep)
  let post := s.data.drop (pre.length + 1)
  (String.mk pre, String.mk post)

/-- Does `pat` occur as a prefix of `s`? -/
def startsWithChars : List Char → List Char → Bool
  | [], _ => true
  | _ :: _, [] => false
  | p :: ps, c :: cs => p = c && startsWithChars ps cs

/-- Split at the first occurrence of `pat`: `some (before, after)` where
`before` is the text before the occurrence and `after` the text after it;
`none` when `pat` does not occur.  The empty pattern occurs at position 0. -/
def splitAtFirst (pat : List Char) : List Char → Option (List Char × List Char)
  | [] => if startsWithChars pat [] then some ([], []) else none
  | c :: rest =>
    if startsWithChars pat (c :: rest) then
      some ([], (c :: rest).drop pat.length)
    else
      match splitAtFirst pat rest with
      | some (pre, post) => some (c :: pre, post)
      | none => none

/-- Python substring containment `needle in hay` (the empty needle matches). -/
def pySubstr (needle hay : String) : Bool :=
  (splitAtFirst needle.data hay.data).isSome

/-- `os.path.join a b` for a relative second component (POSIX). -/
def joinPath (a b : String) : String := a ++ "/" ++ b

/-! ## Python `dict` as an association list (last assignment wins) -/

/-- `d.get(k, default)` / `d[k]` on a JSON-object association list; a later
binding for the same key shadows an earlier one, as in a Python dict built by
repeated assignment (and as `json.loads` does with duplicate keys). -/
def dictGetD (l : List (String × String)) (k d : String) : String :=
  match l.reverse.find? (fun p => p.1 = k) with
  | some p => p.2
  | none => d

/-- `k in d` on a JSON-object association list. -/
def dictHasKey (l : List (String × String)) (k : String) : Bool :=
  l.any (fun p => p.1 = k)

/-! ## The frontmatter regular expression

Both `openskills.read_skill_md` and `discovery._parse_skill_md` split
`SKILL.md` content with `re.match(r"^---\s*\n(.*?)\n---\s*\n(.*)$", c, DOTALL)`.
The scanners below implement that pattern's exact backtracking semantics:

* `^---` — the content must start with three dashes;
* `\s*\n` — a whitespace run that contains a newline is consumed up to and
  including its **last** newline (greedy `\s*`, then backtracking to `\n`);
  when no such split lets the rest of the pattern match, the next-later
  newline split is tried (`wsNlCandidates`, tried last-first);
* `(.*?)\n---\s*\n` — the **first** position at which `\n---` is followed by
  a whitespace run containing a newline ends group 1 (non-greedy);
* `(.*)$` — group 2 is everything that remains (DOTALL, greedy `.*`).
-/

/-- Remainders after each newline inside the maximal leading whitespace run,
in the order the newlines occur. -/
def wsNlCandidates : List Char → List (List Char)
  | [] => []
  | c :: rest =>
    if pyIsSpace c then
      if c = '\n' then rest :: wsNlCandidates rest else wsNlCandidates rest
    else []

/-- Consume a maximal leading whitespace run up to and including its last
newline; `none` when the run contains no newline (`\s*\n`, greedy). -/
def wsRunAfterLastNl (cs : List Char) : Option (List Char) :=
  (wsNlCandidates cs).getLast?

/-- Does `\n---\s*\n` match at the head of `cs`?  On success, the remainder
after the delimiter (the consumed `\s*` being maximal-then-backtracked). -/
def fmDelim (cs : List Char) : Option (List Char) :=
  match cs with
  | '\n' :: '-' :: '-' :: '-' :: tail => wsRunAfterLastNl tail
  | _ => none

/-- Scan for the first (leftmost) match of `\n---\s*\n`; returns
`(group-1 characters, remainder)`. -/
def findFmEnd : List Char → Option (List Char × List Char)
  | [] => none
  | c :: rest =>
    match fmDelim (c :: rest) with
    | some rem => some ([], rem)
    | none =>
      match findFmEnd rest with
      | some (g, rem) => some (c :: g, rem)
      | none => none

/-- `re.match(r"^---\s*\n(.*?)\n---\s*\n(.*)$", content, re.DOTALL)`:
`some (group1, group2)` on a match, `none` otherwise. -/
def fmSplit (content : String) : Option (String × String) :=
  match content.data with
  | '-' :: '-' :: '-' :: tail =>
    ((wsNlCandidates tail).reverse).findSome? (fun afterHeader =>
      match findFmEnd afterHeader with
      | some (g1, g2) => some (String.mk g1, String.mk g2)
      | none => none)
  | _ => none

/-! ## YAML-ish frontmatter field parsing (`key: value` lines) -/

/-- `openskills.read_skill_md`'s field loop: for each line of the block that
contains a colon, `key, _, val = line.partition(":")`, stripped. -/
def yamlFieldsRaw (block : String) : List (String × String) :=
  (pySplitLines block).filterMap (fun line =>
    if line.data.contains ':' then
      let p := pyPartition line ':'
      some (pyStrip p.1, pyStrip p.2)
    else none)

/-- `discovery._parse_skill_md`'s field loop: identical, except each line is
stripped before the colon test (same resulting pairs).  Kept separate so each
definition diffs one-to-one against its source loop. -/
def yamlFieldsStripped (block : String) : List (String × String) :=
  (pySplitLines block).filterMap (fun line0 =>
    let line := pyStrip line0
    if line.data.contains ':' then
      let p := pyPartition line ':'
      some (pyStrip p.1, pyStrip p.2)
    else none)

/-! ## `openskills.py` — data classes -/

/-- `openskills.SkillEntry`: lightweight skill metadata parsed from
`AGENTS.md <available_skills>`. -/
structure SkillEntry where
  name : String
  description : String
  location : String
  deriving Repr, DecidableEq

/-- `openskills.SkillDetail`: full skill detail loaded from `SKILL.md` on
demand. -/
structure SkillDetail where
  name : String
  description : String
  instructions : String
  base_dir : String
  script_path : String
  deriving Repr, DecidableEq

/-- `openskills.ExecutionResult`. -/
structure ExecutionResult where
  success : Bool
  exit_code : Int
  stdout : String
  stderr : String
  deriving Repr, DecidableEq

/-! ## `openskills.parse_agents_md` -/

/-- One `<skill>` element as `ElementTree` exposes it to the loop in
`parse_agents_md`: `findtext` of each child, `none` when the child is absent
(the element-tree parser itself is an oracle, see `parse_agents_md`). -/
structure XmlSkill where
  name_text : Option String
  desc_text : Option String
  loc_text : Option String
  deriving Repr, DecidableEq

/-- `re.search(r"<available_skills>(.*?)</available_skills>", content, DOTALL)`:
the text between the first opening tag and the first closing tag after it. -/
def extract_available_skills (content : String) : Option String :=
  match splitAtFirst ("<available_skills>").data content.data with
  | none => none
  | some (_, after) =>
    match splitAtFirst ("</available_skills>").data after with
    | none => none
    | some (inner, _) => some (String.mk inner)

/-- `openskills.parse_agents_md`.  `file_content` is the filesystem oracle's
answer for `agents_md_path` (`none` = `os.path.isfile` is false); `xml_parse`
is the `ET.fromstring` oracle: the list of direct `<skill>` children on
success, `none` on `ET.ParseError`. -/
def parse_agents_md (file_content : Option String)
    (xml_parse : String → Option (List XmlSkill)) : List SkillEntry :=
  match file_content with
  | none => []
  | some content =>
    match extract_available_skills content with
    | none => []
    | some inner =>
      match xml_parse ("<root>" ++ inner ++ "</root>") with
      | none => []
      | some elems =>
        elems.filterMap (fun el =>
          let nm := pyStrip (el.name_text.getD "")
          let ds := pyStrip (el.desc_text.getD "")
          let lc := pyStrip (el.loc_text.getD "")
          if nm = "" then none else some (SkillEntry.mk nm ds lc))

/-! ## `openskills.read_skill_md` -/

/-- `openskills.read_skill_md`.  `files` is the filesystem oracle; `abspath`
models `os.path.abspath` (pure path normalisation, applied exactly where the
source applies it). -/
def read_skill_md (files : String → Option String) (abspath : String → String)
    (skills_dir : String) (entry : SkillEntry) : Option SkillDetail :=
  let skill_dir := joinPath skills_dir (pyRstripChars ['/'] entry.location)
  let skill_md_path := joinPath skill_dir "SKILL.md"
  match files skill_md_path with
  | none => none
  | some content =>
    match fmSplit content with
    | none => none
    | some (yaml_block, rest) =>
      let body := pyStrip rest
      let fields := yamlFieldsRaw yaml_block
      let script_loc := joinPath (joinPath skill_dir "scripts") "run.py"
      let script_path := if (files script_loc).isSome then script_loc else ""
      some (SkillDetail.mk
        (dictGetD fields "name" entry.name)
        (dictGetD fields "description" entry.description)
        body
        (abspath skill_dir)
        (if script_path ≠ "" then abspath script_path else ""))

/-! ## `openskills.execute_skill` -/

/-- Outcome of the one `subprocess.run` call in `execute_skill`, as an oracle:
a clean child exit with its return code and captured streams, a
`subprocess.TimeoutExpired`, or any other exception (spawn failure etc.) with
its message. -/
inductive SubprocOutcome where
  | completed (returncode : Int) (stdout : String) (stderr : String)
  | timedOut
  | raised (msg : String)
  deriving Repr, DecidableEq

/-- `openskills.execute_skill`.  Total by construction: every branch of the
source returns an `ExecutionResult` and no branch raises. -/
def execute_skill (run : SubprocOutcome) (detail : SkillDetail)
    (_stdin_data : String) (timeout_sec : Nat) : ExecutionResult :=
  if detail.script_path = "" then
    ExecutionResult.mk false (-1) ""
      ("No scripts/run.py found for skill: " ++ detail.name)
  else
    match run with
    | .completed rc out err => ExecutionResult.mk (rc = 0) rc out err
    | .timedOut =>
      ExecutionResult.mk false (-1) ""
        ("Skill execution timed out after " ++ toString timeout_sec ++ "s")
    | .raised msg =>
      ExecutionResult.mk false (-1) "" ("Skill execution failed: " ++ msg)

/-! ## `server.py` — request/response protocol -/

/-- The JSON document `make_response` serialises, minus the wall-clock
`timestamp` field (informational only, not modelled). -/
structure ResponseMsg where
  request_id : String
  status : String
  content : String
  error : String
  deriving Repr, DecidableEq

/-- `server.make_response` (Python keyword defaults `content=""`, `error=""`
are passed positionally here). -/
def make_response (request_id status content error : String) : ResponseMsg :=
  ResponseMsg.mk request_id status content error

/-- `server.parse_request`.  The argument is the `json.loads` oracle's answer
for the payload string: `none` on `json.JSONDecodeError`, otherwise the parsed
string-valued object.  Returns the object iff the three required fields are
present. -/
def parse_request (payload : Option (List (String × String))) :
    Option (List (String × String)) :=
  match payload with
  | none => none
  | some j =>
    if dictHasKey j "request_id" && dictHasKey j "reply_to" &&
        dictHasKey j "intent" then some j
    else none

/-! ## `server.match_skill_llm`

The LLM call (`llm_utils.chat`) is external I/O; it is modelled by the oracle
`llm : Option String` — `none` when `llm_utils` cannot be imported or `chat`
raises (both fall back to the first skill), `some raw` for the reply text. -/

/-- Python truthiness of an optional string (`if not skill_name`). -/
def optFalsy (o : Option String) : Bool :=
  match o with
  | none => true
  | some s => s = ""

/-- The quote characters stripped from the LLM reply:
`reply.strip().strip("\x60\"'")`. -/
def quoteChars : List Char := ['\x60', '"', '\x27']

/-- `server.match_skill_llm`: single-skill shortcut, substring scan of the
reply, cleaned exact-match fallback, first-skill fallback. -/
def match_skill_llm (llm : Option String) (_task_text : String)
    (skills : List SkillEntry) : Option String :=
  match skills with
  | [] => none
  | [s] => some s.name
  | s0 :: _ =>
    match llm with
    | none => some s0.name
    | some raw =>
      let reply := pyStrip raw
      match skills.find? (fun s => pySubstr s.name reply) with
      | some s => some s.name
      | none =>
        let reply_clean := (pyStripChars quoteChars (pyStrip reply)).toLower
        match skills.find? (fun s => s.name.toLower = reply_clean) with
        | some s => some s.name
        | none => some s0.name

/-! ## `server.worker_thread` — per-message body -/

/-- Result of `json.loads(intent)` as the worker's `try` block observes it
(an oracle, since the JSON grammar itself is not under test): `obj` when the
intent parses to an object, with the values of the `skill` / `data` / `task`
keys; `notObj` when `json.JSONDecodeError` or `TypeError` sends the worker to
the plain-text branch. -/
inductive IntentParse where
  | obj (skill : Option String) (data : Option String) (task : Option String)
  | notObj
  deriving Repr, DecidableEq

/-- Lines 261–283 of `server.worker_thread`: the straight-line tail run once a
skill entry has been selected — progressive disclosure via `read_skill_md`,
execution via `execute_skill`, and the published `(reply_to, response)`.
`skill_name` is the selected name (equal to `entry.name` at every call site,
kept separate because the source's error message interpolates the former). -/
def run_entry (files : String → Option String) (abspath : String → String)
    (skills_dir : String) (outcome : SubprocOutcome) (timeout_sec : Nat)
    (request_id reply_to skill_name : String) (entry : SkillEntry)
    (exec_input : String) : String × ResponseMsg :=
  match read_skill_md files abspath skills_dir entry with
  | none =>
    (reply_to, make_response request_id "error" ""
      ("Could not load SKILL.md for '" ++ skill_name ++ "'"))
  | some detail =>
    let result := execute_skill outcome detail exec_input timeout_sec
    if result.success then
      (reply_to, make_response request_id "success" result.stdout "")
    else
      (reply_to, make_response request_id "error" ""
        ("Skill execution failed (exit=" ++ toString result.exit_code ++ "): "
          ++ result.stderr))

/-- Lines 214–283 of `server.worker_thread`: processing of one dequeued
payload.  `matcher` is the skill matcher (the server instantiates it with
`match_skill_llm llm`; the spec treats it as an injectable plug point);
`intent_parse` is the `json.loads` oracle for the intent string; `payload` is
the `json.loads` oracle's answer for the payload string.  Returns the
`(reply_to, response)` pair published on the PUB socket, or `none` when the
worker `continue`s without publishing. -/
def worker_step (files : String → Option String) (abspath : String → String)
    (skills_dir : String)
    (matcher : String → List SkillEntry → Option String)
    (intent_parse : String → IntentParse)
    (outcome : SubprocOutcome) (timeout_sec : Nat)
    (skills : List SkillEntry)
    (payload : Option (List (String × String))) :
    Option (String × ResponseMsg) :=
  match parse_request payload with
  | none => none
  | some req =>
    let request_id := dictGetD req "request_id" ""
    let reply_to := dictGetD req "reply_to" ""
    let intent := dictGetD req "intent" ""
    let mode : Option String × String :=
      match intent_parse intent with
      | .notObj => (matcher intent skills, intent)
      | .obj sk da ta =>
        let exec_input :=
          match da, ta with
          | some d, _ => d
          | none, some t => t
          | none, none => intent
        let skill_name :=
          if optFalsy sk then
            match ta with
            | some t => matcher t skills
            | none => sk
          else sk
        (skill_name, exec_input)
    if optFalsy mode.1 then
      some (reply_to, make_response request_id "error" ""
        "No matching skill found")
    else
      let sname := mode.1.getD ""
      match skills.find? (fun s => s.name = sname) with
      | none =>
        some (reply_to, make_response request_id "error" ""
          ("Skill '" ++ sname ++ "' not found"))
      | some entry =>
        some (run_entry files abspath skills_dir outcome timeout_sec
          request_id reply_to sname entry mode.2)

/-! ## `skillscale/discovery.py` -/

namespace Discovery

/-- `discovery.SkillMetadata` (dataclass), including the `instructions` field
the scan fills in. -/
structure SkillMetadata where
  name : String
  description : String
  topic : String
  license : String
  compatibility : String
  allowed_tools : String
  skill_dir : String
  instructions : String
  deriving Repr, DecidableEq

/-- `SkillDiscovery._parse_skill_md`.  `content` is the filesystem oracle's
answer for the `SKILL.md` path (`none` = the `OSError` branch). -/
def parse_skill_md (content : Option String) (topic : String)
    (skill_dir : String) : Option SkillMetadata :=
  match content with
  | none => none
  | some content =>
    match fmSplit content with
    | none => none
    | some (yaml_block, rest) =>
      let body := pyStrip rest
      let fields := yamlFieldsStripped yaml_block
      let name := dictGetD fields "name" ""
      if name = "" then none
      else
        some (SkillMetadata.mk name
          (dictGetD fields "description" "")
          topic
          (dictGetD fields "license" "MIT")
          (dictGetD fields "compatibility" "")
          (dictGetD fields "allowed-tools" "")
          skill_dir
          body)

/-- One direct subdirectory of a topic folder, with the content of its
`SKILL.md` when that file exists. -/
structure FsSkillDir where
  dirName : String
  skillMd : Option String
  deriving Repr, DecidableEq

/-- One topic folder (direct subdirectory of the skills root) with its
skill subdirectories.  The listings stand for `sorted(os.listdir(...))`, so a
scan is modelled on listings already in sorted order. -/
structure FsCategory where
  catName : String
  dirs : List FsSkillDir
  deriving Repr, DecidableEq

/-- The topic string derived from a category folder name:
`f"TOPIC_{category.upper().replace('-', '_')}"`. -/
def topicOfCategory (category : String) : String :=
  "TOPIC_" ++ (category.toUpper.replace "-" "_")

/-- `SkillDiscovery.scan`, restricted to the `_skills` store it fills: every
`SKILL.md` found one level below a category folder is parsed with
`_parse_skill_md` and the resulting metadata (instructions included) is
retained.  Directories without a `SKILL.md` are skipped, as in the source. -/
def scan_skills (root : String) (tree : List FsCategory) : List SkillMetadata :=
  tree.flatMap (fun cat =>
    let topic := topicOfCategory cat.catName
    cat.dirs.filterMap (fun d =>
      match d.skillMd with
      | none => none
      | some content =>
        parse_skill_md (some content) topic
          (joinPath (joinPath root cat.catName) d.dirName)))

end Discovery

/-! ## `skillscale/client.py` — `SkillScaleClient` -/

namespace Client

/-- `client._PendingRequest`, minus the `asyncio.Future` (whose resolution is
the `WaitOutcome` oracle) and `created_at` (wall clock, used only by
`gc_stale`, which no claim touches). -/
structure PendingEntry where
  request_id : String
  topic : String
  intent : String
  deriving Repr, DecidableEq

/-- The observable state of a `SkillScaleClient`: `_running`, whether the ZMQ
context and the two sockets are open, the reply-topic subscription held by the
SUB socket, whether the listener task is alive, and the `_pending` table. -/
structure ClientState where
  running : Bool
  ctx_open : Bool
  pub_open : Bool
  sub_open : Bool
  subscribed : Option String
  listener_running : Bool
  pending : List (String × PendingEntry)
  deriving Repr, DecidableEq

/-- `SkillScaleClient.__init__`: no context, no sockets, no listener, empty
pending table. -/
def ClientState.initial : ClientState :=
  ClientState.mk false false false false none false []

/-- `SkillScaleClient.connect`: a no-op when already running; otherwise opens
the context and both sockets, subscribes to the client's reply topic, sets
`_running` and starts the listener task. -/
def connect (client_id : String) (st : ClientState) : ClientState :=
  if st.running then st
  else
    { st with
      ctx_open := true
      pub_open := true
      sub_open := true
      subscribed := some client_id
      running := true
      listener_running := true }

/-- `SkillScaleClient.close`: clears `_running`, cancels the listener, cancels
every pending future and clears the table, closes both sockets and terminates
the context. -/
def close (st : ClientState) : ClientState :=
  { st with
    running := false
    listener_running := false
    pending := []
    pub_open := false
    sub_open := false
    ctx_open := false }

/-- Remove a key from the pending table (`dict.pop(rid, None)`). -/
def dictRemove (l : List (String × PendingEntry)) (k : String) :
    List (String × PendingEntry) :=
  l.filter (fun p => p.1 ≠ k)

/-- Insert/overwrite a key in the pending table (`self._pending[rid] = ...`).
Python dict assignment keeps one binding per key. -/
def dictInsert (l : List (String × PendingEntry)) (k : String)
    (v : PendingEntry) : List (String × PendingEntry) :=
  dictRemove l k ++ [(k, v)]

/-- What `invoke` can raise, per its docstring: `ConnectionError` before
`connect()`, `asyncio.TimeoutError` on deadline expiry, `RuntimeError`
(carrying the server's error text) on an error response. -/
inductive InvokeError where
  | notConnected
  | timeout
  | skillError (msg : String)
  deriving Repr, DecidableEq

/-- How the registered future for one `invoke` call settles, as an oracle:
resolved with content by the listener, rejected with an error by the listener,
or never settled within the timeout. -/
inductive WaitOutcome where
  | resolved (content : String)
  | rejected (error : String)
  | noResponse
  deriving Repr, DecidableEq

/-- `SkillScaleClient.invoke`: connection check, registration of the pending
entry under the fresh `request_id`, then the awaited outcome.  The listener
pops the entry before resolving or rejecting (client.py line 330); the
timeout handler pops it before re-raising (line 235).  Returns the call's
result together with the client state after the call. -/
def invoke (st : ClientState) (_topic _intent : String) (request_id : String)
    (outcome : WaitOutcome) : Except InvokeError String × ClientState :=
  if !st.running then (Except.error InvokeError.notConnected, st)
  else
    let st1 := { st with
      pending := dictInsert st.pending request_id
        (PendingEntry.mk request_id _topic _intent) }
    match outcome with
    | .resolved content =>
      (Except.ok content,
        { st1 with pending := dictRemove st1.pending request_id })
    | .rejected err =>
      (Except.error (InvokeError.skillError err),
        { st1 with pending := dictRemove st1.pending request_id })
    | .noResponse =>
      (Except.error InvokeError.timeout,
        { st1 with pending := dictRemove st1.pending request_id })

/-- `SkillScaleClient.invoke_parallel`: the list comprehension builds one
`invoke` task per `(topic, intent)` pair and `asyncio.gather(...,
return_exceptions=True)` collects, in input order, each task's result or the
exception it raised.  `do_invoke` gives each individual call's outcome. -/
def invoke_parallel (do_invoke : String → String → Except InvokeError String)
    (requests : List (String × String)) : List (Except InvokeError String) :=
  requests.map (fun r => do_invoke r.1 r.2)

end Client

/-! ## Helper lemmas -/

/-- A string with a nonempty prefix is nonempty. -/
theorem append_ne_empty_left (a b : String) (h : a ≠ "") : a ++ b ≠ "" := by
  intro hc
  apply h
  have hd := congrArg String.data hc
  rw [String.data_append] at hd
  have hnil : a.data = [] := (List.append_eq_nil.mp (by simpa using hd)).1
  exact String.ext hnil

/-- A joined path is never the empty string. -/
theorem joinPath_ne_empty (a b : String) : joinPath a b ≠ "" := by
  intro hc
  have hl := congrArg String.length hc
  simp only [joinPath, String.length_append] at hl
  have h1 : ("/" : String).length = 1 := rfl
  have h0 : ("" : String).length = 0 := rfl
  omega

/-! ## Claims -/

/-- **C9.** `execute_skill` is total — it is a Lean function into
`ExecutionResult`, mirroring that every branch of the source returns and none
raises — and: a missing script, a child timeout, and a spawn exception each
yield `success = false`, `exit_code = -1` and a nonempty diagnostic in
`stderr`; on a clean child exit, `success` holds exactly when the exit code is
`0`, with the captured streams passed through. -/
theorem execute_skill_total_error_paths (run : SubprocOutcome)
    (detail : SkillDetail) (s : String) (t : Nat) :
    (detail.script_path = "" →
      (execute_skill run detail s t).success = false ∧
      (execute_skill run detail s t).exit_code = -1 ∧
      (execute_skill run detail s t).stderr ≠ "") ∧
    (detail.script_path ≠ "" → run = SubprocOutcome.timedOut →
      (execute_skill run detail s t).success = false ∧
      (execute_skill run detail s t).exit_code = -1 ∧
      (execute_skill run detail s t).stderr ≠ "") ∧
    (∀ m, detail.script_path ≠ "" → run = SubprocOutcome.raised m →
      (execute_skill run detail s t).success = false ∧
      (execute_skill run detail s t).exit_code = -1 ∧
      (execute_skill run detail s t).stderr ≠ "") ∧
    (∀ rc out err, detail.script_path ≠ "" →
      run = SubprocOutcome.completed rc out err →
      ((execute_skill run detail s t).success = true ↔ rc = 0) ∧
      (execute_skill run detail s t).exit_code = rc ∧
      (execute_skill run detail s t).stdout = out ∧
      (execute_skill run detail s t).stderr = err) := by
  refine ⟨fun h => ?_, fun h hr => ?_, fun m h hr => ?_, fun rc out err h hr => ?_⟩
  · have he : execute_skill run detail s t = ExecutionResult.mk false (-1) ""
        ("No scripts/run.py found for skill: " ++ detail.name) := by
      simp [execute_skill, h]
    rw [he]
    exact ⟨rfl, rfl, append_ne_empty_left _ _ (by decide)⟩
  · subst hr
    have he : execute_skill SubprocOutcome.timedOut detail s t =
        ExecutionResult.mk false (-1) ""
          ("Skill execution timed out after " ++ toString t ++ "s") := by
      simp [execute_skill, h]
    rw [he]
    exact ⟨rfl, rfl,
      append_ne_empty_left _ _ (append_ne_empty_left _ _ (by decide))⟩
  · subst hr
    have he : execute_skill (SubprocOutcome.raised m) detail s t =
        ExecutionResult.mk false (-1) "" ("Skill execution failed: " ++ m) := by
      simp [execute_skill, h]
    rw [he]
    exact ⟨rfl, rfl, append_ne_empty_left _ _ (by decide)⟩
  · subst hr
    have he : execute_skill (SubprocOutcome.completed rc out err) detail s t =
        ExecutionResult.mk (decide (rc = 0)) rc out err := by
      simp [execute_skill, h]
    rw [he]
    exact ⟨by simp, rfl, rfl, rfl⟩

/-- Witness for C9: the clean-exit clause at a concrete failing skill
(exit code 2, stderr "bad"). -/
theorem execute_skill_total_error_paths_witness :
    ((execute_skill (SubprocOutcome.completed 2 "out" "bad")
        (SkillDetail.mk "alpha" "d" "i" "/b" "/b/scripts/run.py") "x" 120).success
      = true ↔ (2 : Int) = 0) ∧
    (execute_skill (SubprocOutcome.completed 2 "out" "bad")
        (SkillDetail.mk "alpha" "d" "i" "/b" "/b/scripts/run.py") "x" 120).exit_code
      = 2 ∧
    (execute_skill (SubprocOutcome.completed 2 "out" "bad")
        (SkillDetail.mk "alpha" "d" "i" "/b" "/b/scripts/run.py") "x" 120).stdout
      = "out" ∧
    (execute_skill (SubprocOutcome.completed 2 "out" "bad")
        (SkillDetail.mk "alpha" "d" "i" "/b" "/b/scripts/run.py") "x" 120).stderr
      = "bad" :=
  (execute_skill_total_error_paths (SubprocOutcome.completed 2 "out" "bad")
      (SkillDetail.mk "alpha" "d" "i" "/b" "/b/scripts/run.py") "x" 120).2.2.2
    2 "out" "bad" (by decide) rfl

/-- **C7.** `invoke_parallel` never raises: it is a total function returning,
for every request list, a list of the same length in which position `i` holds
exactly the result or error that the `i`-th request's individual `invoke`
produced (order of the input, not of completion). -/
theorem invoke_parallel_in_place (do_invoke : String → String →
    Except Client.InvokeError String) (requests : List (String × String)) :
    (Client.invoke_parallel do_invoke requests).length = requests.length ∧
    ∀ i : Nat, (Client.invoke_parallel do_invoke requests)[i]? =
      (requests[i]?).map (fun r => do_invoke r.1 r.2) := by
  refine ⟨by simp [Client.invoke_parallel], fun i => ?_⟩
  simp [Client.invoke_parallel, List.getElem?_map]

/-- **C8.** `connect; close; connect` on a fresh client yields exactly the
state of a single `connect`: running, both sockets and the context open, the
reply-topic subscription in place, the listener running, and an empty pending
table. -/
theorem connect_close_connect (cid : String) :
    Client.connect cid (Client.close (Client.connect cid
      Client.ClientState.initial)) = Client.connect cid
      Client.ClientState.initial ∧
    (Client.connect cid (Client.close (Client.connect cid
      Client.ClientState.initial))).running = true ∧
    (Client.connect cid (Client.close (Client.connect cid
      Client.ClientState.initial))).pub_open = true ∧
    (Client.connect cid (Client.close (Client.connect cid
      Client.ClientState.initial))).sub_open = true ∧
    (Client.connect cid (Client.close (Client.connect cid
      Client.ClientState.initial))).ctx_open = true ∧
    (Client.connect cid (Client.close (Client.connect cid
      Client.ClientState.initial))).listener_running = true ∧
    (Client.connect cid (Client.close (Client.connect cid
      Client.ClientState.initial))).subscribed = some cid ∧
    (Client.connect cid (Client.close (Client.connect cid
      Client.ClientState.initial))).pending = [] := by
  simp [Client.connect, Client.close, Client.ClientState.initial]

/-- **C6.** When the waiter for an `invoke` does not settle within the
timeout, the call fails with the timeout error and the pending table of the
resulting state holds no entry for that `request_id`. -/
theorem invoke_timeout_removes_pending (st : Client.ClientState)
    (topic intent rid : String) (h : st.running = true) :
    (Client.invoke st topic intent rid Client.WaitOutcome.noResponse).1 =
      Except.error Client.InvokeError.timeout ∧
    ∀ p ∈ (Client.invoke st topic intent rid
      Client.WaitOutcome.noResponse).2.pending, p.1 ≠ rid := by
  constructor
  · simp [Client.invoke, h]
  · intro p hp
    simp only [Client.invoke, h, Bool.not_true, Bool.false_eq_true,
      if_false] at hp
    simp only [Client.dictRemove, List.mem_filter] at hp
    simpa using hp.2

/-- Witness for C6: a freshly connected client, concrete topic, intent and
request id. -/
theorem invoke_timeout_removes_pending_witness :
    (Client.invoke (Client.connect "AGENT_REPLY_1" Client.ClientState.initial)
      "TOPIC_X" "hello" "rid1" Client.WaitOutcome.noResponse).1 =
      Except.error Client.InvokeError.timeout ∧
    ∀ p ∈ (Client.invoke (Client.connect "AGENT_REPLY_1"
      Client.ClientState.initial) "TOPIC_X" "hello" "rid1"
      Client.WaitOutcome.noResponse).2.pending, p.1 ≠ "rid1" :=
  invoke_timeout_removes_pending
    (Client.connect "AGENT_REPLY_1" Client.ClientState.initial)
    "TOPIC_X" "hello" "rid1" (by decide)

/-! ### C1 — the single-skill shortcut and the intent modes

Fixtures: a server knowing exactly one skill `alpha`, and an intent-parse
oracle mapping the intent string "intent-explicit-beta" to the parse of the
JSON object with a single field `skill` valued `"beta"` (explicit mode), and
"intent-task" to the parse of an object with a `task` field. -/

def c1_skills : List SkillEntry := [SkillEntry.mk "alpha" "does alpha" "alpha"]

def c1_ip : String → IntentParse := fun s =>
  if s = "intent-explicit-beta" then IntentParse.obj (some "beta") none none
  else if s = "intent-task" then IntentParse.obj none none (some "summarize this")
  else IntentParse.notObj

def c1_req : List (String × String) :=
  [("request_id", "r1"), ("reply_to", "AGENT_REPLY_1"),
   ("intent", "intent-explicit-beta")]

def c1_req_task : List (String × String) :=
  [("request_id", "r1"), ("reply_to", "AGENT_REPLY_1"),
   ("intent", "intent-task")]

/-- **C1, counterexample.**  On a server with exactly one skill (`alpha`), an
explicit-mode request naming another skill (`beta`) does NOT select the one
known skill: the worker publishes the not-found error.  This refutes the
claim that exactly-one-skill servers select their skill regardless of intent
mode. -/
theorem c1_explicit_mode_bypasses_single_skill_shortcut :
    worker_step (fun _ => none) id "S" (match_skill_llm none) c1_ip
      SubprocOutcome.timedOut 120 c1_skills (some c1_req) =
    some ("AGENT_REPLY_1",
      make_response "r1" "error" "" "Skill 'beta' not found") := by
  decide

/-- **C1, amended.**  The single-skill shortcut lives in `match_skill_llm`,
which runs only when no (non-empty) explicit skill name is present: on a
server knowing exactly one skill, (1) the matcher always returns that skill,
so (2) task-mode requests and (3) plain-text requests select it and proceed
to loading and execution; but (4) an explicit-mode request naming a different
non-empty skill fails with `error="Skill '<name>' not found"`. -/
theorem single_skill_shortcut_scope
    (files : String → Option String) (abspath : String → String) (sd : String)
    (llm : Option String) (ip : String → IntentParse)
    (outcome : SubprocOutcome) (t : Nat) (e : SkillEntry)
    (req : List (String × String))
    (hreq : parse_request (some req) = some req)
    (hname : e.name ≠ "") :
    (∀ task, match_skill_llm llm task [e] = some e.name) ∧
    (∀ sk da task,
      ip (dictGetD req "intent" "") = IntentParse.obj sk da (some task) →
      optFalsy sk = true →
      worker_step files abspath sd (match_skill_llm llm) ip outcome t [e]
        (some req) =
      some (run_entry files abspath sd outcome t (dictGetD req "request_id" "")
        (dictGetD req "reply_to" "") e.name e (da.getD task))) ∧
    (ip (dictGetD req "intent" "") = IntentParse.notObj →
      worker_step files abspath sd (match_skill_llm llm) ip outcome t [e]
        (some req) =
      some (run_entry files abspath sd outcome t (dictGetD req "request_id" "")
        (dictGetD req "reply_to" "") e.name e (dictGetD req "intent" ""))) ∧
    (∀ n da ta,
      ip (dictGetD req "intent" "") = IntentParse.obj (some n) da ta →
      n ≠ "" → n ≠ e.name →
      worker_step files abspath sd (match_skill_llm llm) ip outcome t [e]
        (some req) =
      some (dictGetD req "reply_to" "",
        make_response (dictGetD req "request_id" "") "error" ""
          ("Skill '" ++ n ++ "' not found"))) := by
  refine ⟨fun task => rfl, fun sk da task hip hsk => ?_, fun hip => ?_,
    fun n da ta hip hn hne => ?_⟩
  · simp only [worker_step, hreq, hip, hsk, match_skill_llm, if_pos]
    simp only [optFalsy]
    simp [hname]
    cases da <;> rfl
  · simp only [worker_step, hreq, hip, match_skill_llm]
    simp only [optFalsy]
    simp [hname]
  · simp only [worker_step, hreq, hip, optFalsy]
    simp [hn, List.find?, hne, Ne.symm hne]

/-- Witness for the amended C1, task-mode clause at a concrete request. -/
theorem single_skill_shortcut_scope_witness :
    worker_step (fun _ => none) id "S" (match_skill_llm none) c1_ip
      SubprocOutcome.timedOut 120 c1_skills (some c1_req_task) =
    some (run_entry (fun _ => none) id "S" SubprocOutcome.timedOut 120
      "r1" "AGENT_REPLY_1" "alpha" (SkillEntry.mk "alpha" "does alpha" "alpha")
      "summarize this") :=
  (single_skill_shortcut_scope (fun _ => none) id "S" none c1_ip
      SubprocOutcome.timedOut 120 (SkillEntry.mk "alpha" "does alpha" "alpha")
      c1_req_task (by decide) (by decide)).2.1
    none none "summarize this" (by decide) (by decide)

/-! ### C2 — errors when the matcher finds nothing

Fixtures: a server with two skills, and a task-mode request whose intent
string "intent-task-odd" parses to an object with only a `task` field. -/

def c2_skills : List SkillEntry :=
  [SkillEntry.mk "alpha" "does alpha" "alpha",
   SkillEntry.mk "beta" "does beta" "beta"]

def c2_ip : String → IntentParse := fun s =>
  if s = "intent-task-odd" then IntentParse.obj none none (some "something odd")
  else IntentParse.notObj

def c2_req : List (String × String) :=
  [("request_id", "r2"), ("reply_to", "AGENT_REPLY_2"),
   ("intent", "intent-task-odd")]

/-- **C2, counterexample.**  Task-mode request, non-empty skill list,
configured matcher returning `none`: the published response has
`status="error"` but its error field is `"No matching skill found"` — not
exactly `"No matching skill"` as claimed. -/
theorem c2_no_match_error_text :
    worker_step (fun _ => none) id "S" (fun _ _ => none) c2_ip
      SubprocOutcome.timedOut 120 c2_skills (some c2_req) =
    some ("AGENT_REPLY_2",
      make_response "r2" "error" "" "No matching skill found") ∧
    "No matching skill found" ≠ "No matching skill" := by
  constructor
  · decide
  · decide

/-- **C2, amended.**  For a task-mode request on any skill list: when the
configured matcher returns `none` — or an empty name, which the worker's
truthiness test conflates with `none` — the response is `status="error"` with
`error="No matching skill found"`; when it returns a non-empty name that is
not in the skill list, the response is `status="error"` with
`error="Skill '<name>' not found"`. -/
theorem matcher_no_match_responses
    (files : String → Option String) (abspath : String → String) (sd : String)
    (matcher : String → List SkillEntry → Option String)
    (ip : String → IntentParse) (outcome : SubprocOutcome) (t : Nat)
    (skills : List SkillEntry) (req : List (String × String))
    (da : Option String) (task : String)
    (hreq : parse_request (some req) = some req)
    (hip : ip (dictGetD req "intent" "") =
      IntentParse.obj none da (some task)) :
    (matcher task skills = none →
      worker_step files abspath sd matcher ip outcome t skills (some req) =
      some (dictGetD req "reply_to" "",
        make_response (dictGetD req "request_id" "") "error" ""
          "No matching skill found")) ∧
    (matcher task skills = some "" →
      worker_step files abspath sd matcher ip outcome t skills (some req) =
      some (dictGetD req "reply_to" "",
        make_response (dictGetD req "request_id" "") "error" ""
          "No matching skill found")) ∧
    (∀ n, matcher task skills = some n → n ≠ "" →
      skills.find? (fun s => s.name = n) = none →
      worker_step files abspath sd matcher ip outcome t skills (some req) =
      some (dictGetD req "reply_to" "",
        make_response (dictGetD req "request_id" "") "error" ""
          ("Skill '" ++ n ++ "' not found"))) := by
  refine ⟨fun hm => ?_, fun hm => ?_, fun n hm hn hfind => ?_⟩
  · simp only [worker_step, hreq, hip, hm, optFalsy]
    simp
  · simp only [worker_step, hreq, hip, hm, optFalsy]
    simp
  · simp only [worker_step, hreq, hip, hm, optFalsy]
    simp [hn, hfind]

/-- Witness for the amended C2: the matcher-returns-`none` clause at a
concrete two-skill server. -/
theorem matcher_no_match_responses_witness :
    worker_step (fun _ => none) id "S" (fun _ _ => none) c2_ip
      SubprocOutcome.timedOut 120 c2_skills (some c2_req) =
    some ("AGENT_REPLY_2",
      make_response "r2" "error" "" "No matching skill found") :=
  (matcher_no_match_responses (fun _ => none) id "S" (fun _ _ => none) c2_ip
      SubprocOutcome.timedOut 120 c2_skills c2_req none "something odd"
      (by decide) (by decide)).1 rfl

/-! ### C3 — payloads with missing required fields -/

def c3_req : List (String × String) :=
  [("request_id", "r3"), ("reply_to", "AGENT_REPLY_3")]

/-- **C3, counterexample.**  A payload that parses as a JSON object carrying
`request_id` and `reply_to` but no `intent` is discarded silently: the worker
publishes nothing at all — not a `status="error"` /
`error="malformed request"` response on the available `reply_to`. -/
theorem c3_missing_field_discarded_silently :
    dictHasKey c3_req "reply_to" = true ∧
    dictHasKey c3_req "intent" = false ∧
    worker_step (fun _ => none) id "S" (fun _ _ => none)
      (fun _ => IntentParse.notObj) SubprocOutcome.timedOut 120 []
      (some c3_req) = none := by
  decide

/-- **C3, amended.**  A payload missing any of the three required fields is
treated exactly like an unparseable one: `parse_request` rejects it and the
worker `continue`s without publishing anything, whether or not `reply_to` is
present. -/
theorem missing_field_no_response
    (files : String → Option String) (abspath : String → String) (sd : String)
    (matcher : String → List SkillEntry → Option String)
    (ip : String → IntentParse) (outcome : SubprocOutcome) (t : Nat)
    (skills : List SkillEntry) (j : List (String × String))
    (h : (dictHasKey j "request_id" && dictHasKey j "reply_to" &&
      dictHasKey j "intent") = false) :
    parse_request (some j) = none ∧
    worker_step files abspath sd matcher ip outcome t skills (some j) =
      none := by
  have hp : parse_request (some j) = none := by
    simp only [parse_request, h]
    simp
  exact ⟨hp, by simp only [worker_step, hp]⟩

/-- Witness for the amended C3 at the concrete intent-less payload. -/
theorem missing_field_no_response_witness :
    parse_request (some c3_req) = none ∧
    worker_step (fun _ => none) id "S" (fun _ _ => none)
      (fun _ => IntentParse.notObj) SubprocOutcome.timedOut 120 []
      (some c3_req) = none :=
  missing_field_no_response (fun _ => none) id "S" (fun _ _ => none)
    (fun _ => IntentParse.notObj) SubprocOutcome.timedOut 120 [] c3_req
    (by decide)

/-! ### C4 — what discovery stores at scan time -/

/-- A one-topic, one-skill tree whose `SKILL.md` has a frontmatter and a
non-empty instruction body. -/
def c4_tree : List Discovery.FsCategory :=
  [Discovery.FsCategory.mk "data-processing"
    [Discovery.FsSkillDir.mk "text-summarizer"
      (some ("---\nname: text-summarizer\ndescription: Summarizes text\n" ++
        "---\nFULL INSTRUCTIONS"))]]

/-- **C4.**  `SkillDiscovery.scan` reads the whole `SKILL.md` and stores its
full instruction body in the retained metadata at scan time: scanning the
tree above yields a `SkillMetadata` whose `instructions` field already holds
the (non-empty) body — contradicting the module's stated
metadata-only/on-demand contract. -/
theorem c4_scan_stores_instructions_eagerly :
    (Discovery.scan_skills "/skills" c4_tree).map
      (fun m => (m.name, m.description, m.instructions)) =
      [("text-summarizer", "Summarizes text", "FULL INSTRUCTIONS")] ∧
    ∀ m ∈ Discovery.scan_skills "/skills" c4_tree, m.instructions ≠ "" := by
  decide

/-! ### C5 — executable resolution -/

/-- A skill folder holding a `SKILL.md` and a `scripts/run.sh` — an executable
with an extension other than `.py` — but no `scripts/run.py`. -/
def c5_files : String → Option String := fun p =>
  if p = "S/demo/SKILL.md" then
    some "---\nname: demo\ndescription: d\n---\nInstructions body"
  else if p = "S/demo/scripts/run.sh" then some "#!/bin/sh\ncat -"
  else none

/-- **C5, counterexample.**  Resolution does not take "the first
`run.<any-ext>` file": with `scripts/run.sh` present and no `scripts/run.py`,
`read_skill_md` succeeds but resolves no executable at all
(`script_path = ""`). -/
theorem c5_run_sh_not_resolved :
    (c5_files "S/demo/scripts/run.sh").isSome = true ∧
    (read_skill_md c5_files id "S" (SkillEntry.mk "demo" "d" "demo")).map
      (fun d => d.script_path) = some "" := by
  decide

/-- **C5, amended.**  Executable resolution consults exactly one path,
`<skills_dir>/<location>/scripts/run.py`: when that file exists the loaded
detail's `script_path` is its (normalised) path, otherwise `script_path` is
empty — and a missing executable is recoverable: execution then returns an
error `ExecutionResult` (`success=false`, `exit_code=-1`, diagnostic in
`stderr`) instead of crashing. -/
theorem run_py_only_resolution
    (files : String → Option String) (abspath : String → String)
    (sd : String) (entry : SkillEntry) (detail : SkillDetail)
    (h : read_skill_md files abspath sd entry = some detail) :
    ((files (joinPath (joinPath (joinPath sd
        (pyRstripChars ['/'] entry.location)) "scripts") "run.py")).isSome =
          true →
      detail.script_path = abspath (joinPath (joinPath (joinPath sd
        (pyRstripChars ['/'] entry.location)) "scripts") "run.py")) ∧
    ((files (joinPath (joinPath (joinPath sd
        (pyRstripChars ['/'] entry.location)) "scripts") "run.py")).isSome =
          false →
      detail.script_path = "") ∧
    (∀ outcome s t, detail.script_path = "" →
      (execute_skill outcome detail s t).success = false ∧
      (execute_skill outcome detail s t).exit_code = -1 ∧
      (execute_skill outcome detail s t).stderr ≠ "") := by
  have hexec : ∀ outcome s t, detail.script_path = "" →
      (execute_skill outcome detail s t).success = false ∧
      (execute_skill outcome detail s t).exit_code = -1 ∧
      (execute_skill outcome detail s t).stderr ≠ "" := by
    intro outcome s t hsp
    have he : execute_skill outcome detail s t = ExecutionResult.mk false (-1)
        "" ("No scripts/run.py found for skill: " ++ detail.name) := by
      simp [execute_skill, hsp]
    rw [he]
    exact ⟨rfl, rfl, append_ne_empty_left _ _ (by decide)⟩
  simp only [read_skill_md] at h
  split at h
  · exact absurd h (by simp)
  · split at h
    · exact absurd h (by simp)
    · injection h with h
      subst h
      refine ⟨fun hs => ?_, fun hs => ?_, hexec⟩
      · simp [hs, joinPath_ne_empty]
      · simp [hs]

/-- A skill folder holding a `SKILL.md` and a `scripts/run.py`, for the
amended-C5 witness. -/
def c5w_files : String → Option String := fun p =>
  if p = "S/demo/SKILL.md" then some "---\nname: demo\n---\nbody"
  else if p = "S/demo/scripts/run.py" then some "print" else none

/-- Witness for the amended C5: with `scripts/run.py` present, the loaded
detail's `script_path` is exactly that path. -/
theorem run_py_only_resolution_witness :
    (SkillDetail.mk "demo" "d" "body" "S/demo"
      "S/demo/scripts/run.py").script_path =
    id (joinPath (joinPath (joinPath "S" (pyRstripChars ['/']
      (SkillEntry.mk "demo" "d" "demo").location)) "scripts") "run.py") :=
  (run_py_only_resolution c5w_files id "S" (SkillEntry.mk "demo" "d" "demo")
    (SkillDetail.mk "demo" "d" "body" "S/demo" "S/demo/scripts/run.py")
    (by decide)).1 (by decide)

/-! ### C10 — robustness of `parse_agents_md` -/

/-- **C10.**  `parse_agents_md` is total (it is a Lean function into
`List SkillEntry`, mirroring that every branch of the source returns a list
and none raises) and: a missing file, content without an
`<available_skills>` block, and an XML parse failure each yield `[]`; every
returned entry has a non-empty (stripped) name; and on a successful parse the
result's entries are exactly those of the `<skill>` elements whose stripped
`<name>` text is non-empty — elements with a missing or empty name are
omitted. -/
theorem parse_agents_md_robust (fc : Option String)
    (xp : String → Option (List XmlSkill)) :
    (fc = none → parse_agents_md fc xp = []) ∧
    (∀ c, fc = some c → extract_available_skills c = none →
      parse_agents_md fc xp = []) ∧
    (∀ c inner, fc = some c → extract_available_skills c = some inner →
      xp ("<root>" ++ inner ++ "</root>") = none →
      parse_agents_md fc xp = []) ∧
    (∀ e ∈ parse_agents_md fc xp, e.name ≠ "") ∧
    (∀ c inner elems, fc = some c → extract_available_skills c = some inner →
      xp ("<root>" ++ inner ++ "</root>") = some elems →
      ∀ e, e ∈ parse_agents_md fc xp ↔ ∃ el ∈ elems,
        pyStrip (el.name_text.getD "") ≠ "" ∧
        e = SkillEntry.mk (pyStrip (el.name_text.getD ""))
          (pyStrip (el.desc_text.getD "")) (pyStrip (el.loc_text.getD ""))) := by
  refine ⟨fun h => by rw [h]; rfl, fun c hc he => ?_,
    fun c inner hc he hx => ?_, ?_, fun c inner elems hc he hx e => ?_⟩
  · subst hc
    simp [parse_agents_md, he]
  · subst hc
    simp [parse_agents_md, he, hx]
  · intro e hmem
    cases fc with
    | none => simp [parse_agents_md] at hmem
    | some c =>
      cases hea : extract_available_skills c with
      | none => simp [parse_agents_md, hea] at hmem
      | some inner =>
        cases hx : xp ("<root>" ++ inner ++ "</root>") with
        | none => simp [parse_agents_md, hea, hx] at hmem
        | some elems =>
          simp only [parse_agents_md, hea, hx, List.mem_filterMap] at hmem
          obtain ⟨el, -, hel⟩ := hmem
          by_cases hn : pyStrip (el.name_text.getD "") = ""
          · rw [if_pos hn] at hel
            cases hel
          · rw [if_neg hn] at hel
            have hmk := Option.some.inj hel
            subst hmk
            exact hn
  · subst hc
    simp only [parse_agents_md, he, hx, List.mem_filterMap]
    constructor
    · rintro ⟨el, hm, hel⟩
      by_cases hn : pyStrip (el.name_text.getD "") = ""
      · rw [if_pos hn] at hel
        cases hel
      · rw [if_neg hn] at hel
        exact ⟨el, hm, hn, (Option.some.inj hel).symm⟩
    · rintro ⟨el, hm, hn, rfl⟩
      exact ⟨el, hm, by rw [if_neg hn]⟩

/-- Concrete `<available_skills>` inner text for the C10 witness. -/
def c10_inner : String := "\n  skills\n"

/-- An `AGENTS.md` content carrying the block above. -/
def c10_content : String :=
  "# AGENTS\n<available_skills>" ++ c10_inner ++ "</available_skills>\n"

/-- Parsed `<skill>` elements: one well-formed, one with a blank name, one
with no `<name>` child at all. -/
def c10_elems : List XmlSkill :=
  [XmlSkill.mk (some " csv-analyzer ") (some "Statistical analysis")
    (some "csv-analyzer"),
   XmlSkill.mk (some "   ") (some "blank name") none,
   XmlSkill.mk none (some "missing name") (some "loc")]

/-- The `ET.fromstring` oracle for the C10 witness. -/
def c10_xp : String → Option (List XmlSkill) := fun s =>
  if s = "<root>" ++ c10_inner ++ "</root>" then some c10_elems else none

/-- Witness for C10: the missing-file, missing-block and non-empty-name
clauses at concrete inputs. -/
theorem parse_agents_md_robust_witness :
    parse_agents_md none c10_xp = [] ∧
    parse_agents_md (some "no skills block") c10_xp = [] ∧
    (∀ e ∈ parse_agents_md (some c10_content) c10_xp, e.name ≠ "") :=
  ⟨(parse_agents_md_robust none c10_xp).1 rfl,
   (parse_agents_md_robust (some "no skills block") c10_xp).2.1
     "no skills block" rfl (by decide),
   (parse_agents_md_robust (some c10_content) c10_xp).2.2.2.1⟩

end SkillScale
